import Mathlib

/-!
Shallow embedding of the USB audio streaming device driver
(`lib/usb/usbaudiostreaming.cpp` of the Circle bare-metal environment).

The embedding models the class `CUSBAudioStreamingDevice`: its immutable
configuration data (`StreamConfig`, `TDeviceInfo`), its mutable stream
state (`StreamState`), and the operations `Setup`, `SendChunk`,
`SetVolume`, `UpdateChunkSize` and `SyncCompletionHandler`.  External
collaborators (the USB host controller's control-transfer and
asynchronous-submission engine, the paired audio control device and the
device name registry) are reduced to oracle parameters (`hostOk`,
submission results) and a plain list of registered names, following the
specification's interface catalogue.  Member-field integer widths are
declared in the class header, which is not part of this snapshot; per the
specification's data model ("a fractional synchronization accumulator",
"a bounded per-packet size table") those fields are modelled as
unbounded naturals, and all concrete statements stay far below 2^32.
-/

namespace USBAudio

/-- Supported format constant from the source: stereo. -/
def CHANNELS : Nat := 2

/-- Supported format constant from the source: 16-bit signed subframes. -/
def SUBFRAME_SIZE : Nat := 2

/-- Chunk cadence from the source: 1000 chunks per second. -/
def CHUNK_FREQUENCY : Nat := 1000

/-- USB bus speed of the device, as returned by `GetDevice()->GetSpeed()`. -/
inductive TUSBSpeed where
  | Low
  | Full
  | High
deriving DecidableEq

/-- USB frame rate selected in `UpdateChunkSize`:
`GetSpeed () == USBSpeedFull ? 1000 : 8000`. -/
def frameRate (speed : TUSBSpeed) : Nat :=
  if speed = TUSBSpeed.Full then 1000 else 8000

/-- Feedback-endpoint packet size selected in `SendChunk`:
`GetSpeed () == USBSpeedFull ? 3 : 4`. -/
def syncPacketSize (speed : TUSBSpeed) : Nat :=
  if speed = TUSBSpeed.Full then 3 else 4

/-- One discovered sample-rate range (`TSampleRateRange` of `TDeviceInfo`):
`Min == Max` encodes a discrete rate, `Min < Max` a continuous subrange. -/
structure TSampleRateRange where
  Min : Nat
  Max : Nat
  Resolution : Nat
deriving DecidableEq

/-- Immutable capability snapshot (`m_DeviceInfo`), produced once by
`Configure`.  The fixed-capacity array plus its `SampleRateRanges` count is
modelled as the list of its first `SampleRateRanges` entries. -/
structure TDeviceInfo where
  TerminalType : Nat
  SampleRateRange : List TSampleRateRange
  MinVolume : Int
  MaxVolume : Int
  VolumeSupported : Bool
  MuteSupported : Bool
deriving DecidableEq

/-- Configuration facts fixed by `Configure` and the USB topology:
protocol revision flag `m_bVer200`, bus speed, the synchronous-sync flag
`m_bSynchronousSync` (endpoint attributes `& 0x0C == 0x0C`), whether a
feedback endpoint exists (`m_pEndpointSync != nullptr`), the feature unit
id `m_uchFeatureUnitID`, and the capability snapshot. -/
structure StreamConfig where
  bVer200 : Bool
  speed : TUSBSpeed
  bSynchronousSync : Bool
  hasSyncEP : Bool
  uchFeatureUnitID : Nat
  info : TDeviceInfo
deriving DecidableEq

/-- Mutable stream state of `CUSBAudioStreamingDevice`: current sample
rate, chunk size in bytes, packets per chunk, the per-packet size table
`m_usPacketSizeBytes` (the entries written by the last recomputation),
the feedback-in-flight flag `m_bSyncEPActive` and the fractional
synchronization accumulator `m_nSyncAccu`. -/
structure StreamState where
  nSampleRate : Nat
  nChunkSizeBytes : Nat
  nPacketsPerChunk : Nat
  usPacketSizeBytes : List Nat
  bSyncEPActive : Bool
  nSyncAccu : Nat
deriving DecidableEq

/-- State established by the constructor: everything zero, flag clear. -/
def initialState : StreamState :=
  { nSampleRate := 0
    nChunkSizeBytes := 0
    nPacketsPerChunk := 0
    usPacketSizeBytes := []
    bSyncEPActive := false
    nSyncAccu := 0 }

/-- The literal per-entry acceptance test of `Setup`:
`SampleRateRange[i].Min >= nSampleRate && SampleRateRange[i].Max <= nSampleRate`. -/
def rateMatches (r : TSampleRateRange) (nSampleRate : Nat) : Bool :=
  decide (r.Min ≥ nSampleRate) && decide (r.Max ≤ nSampleRate)

/-- The search loop of `Setup` over the discovered ranges (the loop breaks
at the first matching entry; the rate is supported when the loop does not
run off the end). -/
def rateSupported (info : TDeviceInfo) (nSampleRate : Nat) : Bool :=
  info.SampleRateRange.any (fun r => rateMatches r nSampleRate)

/-- Containment test the specification proposes as the corrected reading
of the acceptance condition.  Modelled from the spec: "discrete ranges
require exact match, continuous ranges require min ≤ rate ≤ max"; this is
NOT what the source compares. -/
def rateContained (info : TDeviceInfo) (nSampleRate : Nat) : Bool :=
  info.SampleRateRange.any
    (fun r => decide (r.Min ≤ nSampleRate) && decide (nSampleRate ≤ r.Max))

/-- Loop body of `UpdateChunkSize`, iterated `m_nPacketsPerChunk` times
from the current accumulator.  Each iteration performs
`m_nSyncAccu += m_nSampleRate; nFrames = m_nSyncAccu / nUSBFrameRate;
m_nSyncAccu %= nUSBFrameRate;
m_usPacketSizeBytes[i] = nFrames * CHANNELS * SUBFRAME_SIZE;
nChunkSizeBytes += m_usPacketSizeBytes[i]`.
Returns (packet-size table, chunk size total, final accumulator). -/
def updateChunkLoop (nSampleRate nUSBFrameRate : Nat) :
    Nat → Nat → List Nat × Nat × Nat
  | 0, nSyncAccu => ([], 0, nSyncAccu)
  | Nat.succ n, nSyncAccu =>
      let accu1 := nSyncAccu + nSampleRate
      let nFrames := accu1 / nUSBFrameRate
      let nPacketSize := nFrames * CHANNELS * SUBFRAME_SIZE
      let rest := updateChunkLoop nSampleRate nUSBFrameRate n (accu1 % nUSBFrameRate)
      (nPacketSize :: rest.1, nPacketSize + rest.2.1, rest.2.2)

/-- Embedding of `CUSBAudioStreamingDevice::UpdateChunkSize`: recomputes the packets
per chunk (`nUSBFrameRate / CHUNK_FREQUENCY`), the per-packet size table,
the accumulator and the chunk size (sum of the packet sizes), under the
spin lock (atomically, matching the step relation used below). -/
def UpdateChunkSize (cfg : StreamConfig) (s : StreamState) : StreamState :=
  let nUSBFrameRate := frameRate cfg.speed
  let nPackets := nUSBFrameRate / CHUNK_FREQUENCY
  let r := updateChunkLoop s.nSampleRate nUSBFrameRate nPackets s.nSyncAccu
  { s with nPacketsPerChunk := nPackets
           usPacketSizeBytes := r.1
           nChunkSizeBytes := r.2.1
           nSyncAccu := r.2.2 }

/-- Embedding of `CUSBAudioStreamingDevice::Setup (nSampleRate)`.  The rate is checked
against the discovered ranges first; on a miss the method returns `FALSE`
having touched nothing.  Then the `SET_CUR` sampling-frequency control
transfer is issued (endpoint-directed 3-byte payload for v1.00,
clock-source-directed 4-byte payload for v2.00); its outcome is the
oracle `hostOk`, and a failure again returns `FALSE` with the state
untouched.  On success `m_nSampleRate` is set and the chunk size is
recomputed: full recomputation under the synchronous discipline,
otherwise `nSampleRate * CHANNELS * SUBFRAME_SIZE / CHUNK_FREQUENCY`. -/
def Setup (cfg : StreamConfig) (hostOk : Bool) (nSampleRate : Nat)
    (s : StreamState) : Bool × StreamState :=
  if !rateSupported cfg.info nSampleRate then
    (false, s)
  else if !hostOk then
    (false, s)
  else
    let s1 := { s with nSampleRate := nSampleRate }
    if cfg.bSynchronousSync then
      (true, UpdateChunkSize cfg s1)
    else
      (true, { s1 with nChunkSizeBytes :=
                nSampleRate * CHANNELS * SUBFRAME_SIZE / CHUNK_FREQUENCY })

/-- Embedding of `CUSBAudioStreamingDevice::SyncCompletionHandler`, the feedback-pipe
completion path.  `bOK` is `!!pURB->GetStatus ()`, `nResultLength` is
`pURB->GetResultLength ()` and `syncEPValue` is the 32-bit word read from
`m_SyncEPBuffer`.  `bFormat10_14 = bOK && nResultLength == 3` selects the
Q10.14 branch (`& 0xFFFFFF` is `% 2^24`, `>> 14` is `/ 2^14`, `& 0x3FFF`
is `% 2^14`); otherwise the Q16.16 branch runs (`>> 16` is `/ 2^16`,
`& 0xFFFF` is `% 2^16`).  On a failed transfer nothing is recomputed.
The in-flight flag `m_bSyncEPActive` is cleared unconditionally. -/
def SyncCompletionHandler (bOK : Bool) (nResultLength : Nat)
    (syncEPValue : Nat) (s : StreamState) : StreamState :=
  let bFormat10_14 := bOK && decide (nResultLength = 3)
  let s1 :=
    if bOK then
      if bFormat10_14 then
        let accu := s.nSyncAccu + syncEPValue % 2 ^ 24
        { s with nChunkSizeBytes := accu / 2 ^ 14 * (CHANNELS * SUBFRAME_SIZE)
                 nSyncAccu := accu % 2 ^ 14 }
      else
        let accu := s.nSyncAccu + syncEPValue
        { s with nChunkSizeBytes := accu / 2 ^ 16 * (CHANNELS * SUBFRAME_SIZE)
                 nSyncAccu := accu % 2 ^ 16 }
    else s
  { s1 with bSyncEPActive := false }

/-- Embedding of `CUSBAudioStreamingDevice::SendChunk`.  `bDataOk` is the result of
submitting the data URB, `bSyncSubmitOk` the result of submitting the
companion feedback-read URB (consulted only when one is submitted).  When
the data submission succeeded, a feedback endpoint exists and no feedback
read is in flight, the in-flight flag is set and the feedback read is
submitted, its result becoming the return value; otherwise, under the
synchronous discipline a successful data submission triggers
`UpdateChunkSize` for the next call. -/
def SendChunk (cfg : StreamConfig) (bDataOk bSyncSubmitOk : Bool)
    (s : StreamState) : Bool × StreamState :=
  if bDataOk && cfg.hasSyncEP && !s.bSyncEPActive then
    (bSyncSubmitOk, { s with bSyncEPActive := true })
  else if bDataOk && cfg.bSynchronousSync then
    (bDataOk, UpdateChunkSize cfg s)
  else
    (bDataOk, s)

/-- Class-specific request code `SET_CUR` (from the audio-class header). -/
def USB_AUDIO_REQ_SET_CUR : Nat := 0x01

/-- Feature-unit control selector for volume (from the audio-class header). -/
def USB_AUDIO_FU_VOLUME_CONTROL : Nat := 0x02

/-- One class-specific control transfer as issued through
`GetHost ()->ControlMessage`: request code, wValue, wIndex, payload
(interpreted as a signed integer where the source buffer is signed) and
payload length. -/
structure ControlMsg where
  Request : Nat
  Value : Nat
  Index : Nat
  Data : Int
  Length : Nat
deriving DecidableEq

/-- Wrap an integer to the signed 16-bit value stored in an `s16` buffer. -/
def toS16 (x : Int) : Int := (x + 2 ^ 15) % 2 ^ 16 - 2 ^ 15

/-- Embedding of `CUSBAudioStreamingDevice::SetVolume (nChannel, ndB)`.  The source
guards the argument with `assert (nChannel <= 1)` before anything else;
an assertion failure halts the call before any transfer, modelled as
`none`.  Then volume support is checked (`FALSE` without a transfer), and
finally the `SET_CUR` volume control transfer is issued: wValue selects
the 1-indexed channel `nChannel + 1`, the 2-byte payload is
`ndB << 8` stored into an `s16`.  The result lists the transfers
issued. -/
def SetVolume (cfg : StreamConfig) (hostOk : Bool) (nChannel : Nat)
    (ndB : Int) : Option (Bool × List ControlMsg) :=
  if nChannel > 1 then
    none
  else if !cfg.info.VolumeSupported then
    some (false, [])
  else
    let msg : ControlMsg :=
      { Request := USB_AUDIO_REQ_SET_CUR
        Value := USB_AUDIO_FU_VOLUME_CONTROL * 2 ^ 8 + (nChannel + 1)
        Index := cfg.uchFeatureUnitID * 2 ^ 8
        Data := toS16 (ndB * 2 ^ 8)
        Length := 2 }
    some (hostOk, [msg])

/-- The name pattern of the source: `static const char DeviceNamePattern[]`. -/
def DeviceNamePattern : String := "uaudio%u-%u"

/-- Name formatting `m_DeviceName.Format (DeviceNamePattern, n, m)`: substitutes the two
`%u` fields of the pattern with the control device's number and the
per-control-device sub-device number. -/
def formatDeviceName (n m : Nat) : String :=
  "uaudio" ++ toString n ++ "-" ++ toString m

/-- Modelled from the spec: the external device name registry
(`CDeviceNameService`) is out of scope and reduced to the list of
registered names; `AddDevice` registers a name. -/
def AddDevice (reg : List String) (name : String) : List String :=
  name :: reg

/-- Modelled from the spec: `RemoveDevice` removes a name from the
external registry. -/
def RemoveDevice (reg : List String) (name : String) : List String :=
  reg.filter (fun x => x ≠ name)

/-- Naming step of `Configure` on success: format the device name from
the parent control device's number `n` and its next streaming sub-device
number `m`, and register it.  Returns the stored `m_DeviceName` and the
new registry. -/
def configureNaming (n m : Nat) (reg : List String) : String × List String :=
  let name := formatDeviceName n m
  (name, AddDevice reg name)

/-- Teardown (destructor): if a device name was stored
(`m_DeviceName.GetLength ()` nonzero, i.e. `Configure` reached naming),
remove it from the registry. -/
def teardownNaming (deviceName : Option String) (reg : List String) :
    List String :=
  match deviceName with
  | none => reg
  | some name => RemoveDevice reg name

/-- Combined system state for the feedback-pipe protocol: the stream
state plus the (physical) number of feedback reads currently submitted
and not yet completed. -/
structure SyncSysState where
  stream : StreamState
  outstanding : Nat
deriving DecidableEq

/-- Events of the feedback protocol: a `SendChunk` call (with the two
submission outcomes) or the delivery of a feedback completion (with the
transfer status, result length and buffer word). -/
inductive AudioEv where
  | send (bDataOk bSyncSubmitOk : Bool)
  | syncComplete (bOK : Bool) (nResultLength syncEPValue : Nat)
deriving DecidableEq

/-- One step of the feedback protocol.  A `send` event runs `SendChunk`;
a feedback read becomes outstanding exactly when one is submitted
successfully.  A completion can only be delivered while a read is
outstanding (otherwise the event is a no-op, since no URB exists); it
runs `SyncCompletionHandler` and retires the read. -/
def stepEv (cfg : StreamConfig) (st : SyncSysState) : AudioEv → SyncSysState
  | AudioEv.send bDataOk bSyncSubmitOk =>
      { stream := (SendChunk cfg bDataOk bSyncSubmitOk st.stream).2
        outstanding :=
          if bDataOk && cfg.hasSyncEP && !st.stream.bSyncEPActive
              && bSyncSubmitOk then
            st.outstanding + 1
          else
            st.outstanding }
  | AudioEv.syncComplete bOK nResultLength syncEPValue =>
      if st.outstanding = 0 then
        st
      else
        { stream := SyncCompletionHandler bOK nResultLength syncEPValue st.stream
          outstanding := st.outstanding - 1 }

/-- Run a list of feedback-protocol events from a state. -/
def runEvents (cfg : StreamConfig) : SyncSysState → List AudioEv → SyncSysState
  | st, [] => st
  | st, e :: es => runEvents cfg (stepEv cfg st e) es

/-- Initial protocol state: fresh device, no feedback read outstanding. -/
def initSys : SyncSysState :=
  { stream := initialState, outstanding := 0 }

/-- Chunk-level iteration of the synchronous discipline: the stream state
after `k` consecutive recomputations. -/
def iterateChunks (cfg : StreamConfig) : StreamState → Nat → StreamState
  | s, 0 => s
  | s, Nat.succ k => iterateChunks cfg (UpdateChunkSize cfg s) k

/-- Total bytes emitted over `k` consecutive synchronous-discipline
chunks (each chunk's size being recomputed before it is sent). -/
def totalChunkBytes (cfg : StreamConfig) : StreamState → Nat → Nat
  | _, 0 => 0
  | s, Nat.succ k =>
      (UpdateChunkSize cfg s).nChunkSizeBytes
        + totalChunkBytes cfg (UpdateChunkSize cfg s) k

/-! Concrete fixtures used by witnesses and counterexamples. -/

/-- Capability snapshot of a legacy device reporting the continuous range
32000-48000 Hz with resolution 1. -/
def infoContinuous3248 : TDeviceInfo :=
  { TerminalType := 0x301
    SampleRateRange := [{ Min := 32000, Max := 48000, Resolution := 1 }]
    MinVolume := -100
    MaxVolume := 0
    VolumeSupported := true
    MuteSupported := true }

/-- Capability snapshot with the single discrete rate 44100 Hz. -/
def infoDiscrete44100 : TDeviceInfo :=
  { infoContinuous3248 with
      SampleRateRange := [{ Min := 44100, Max := 44100, Resolution := 0 }] }

/-- Capability snapshot with the single discrete rate 44500 Hz. -/
def infoDiscrete44500 : TDeviceInfo :=
  { infoContinuous3248 with
      SampleRateRange := [{ Min := 44500, Max := 44500, Resolution := 0 }] }

/-- Legacy full-speed configuration under the static discipline. -/
def mkStaticCfg (info : TDeviceInfo) : StreamConfig :=
  { bVer200 := false
    speed := TUSBSpeed.Full
    bSynchronousSync := false
    hasSyncEP := false
    uchFeatureUnitID := 5
    info := info }

/-- Legacy full-speed configuration under the synchronous discipline. -/
def cfgSyncFull : StreamConfig :=
  { mkStaticCfg infoDiscrete44100 with bSynchronousSync := true }

/-- Stream state with sample rate 44100 Hz already configured. -/
def sRate44100 : StreamState :=
  { initialState with nSampleRate := 44100 }

/-! Helper lemmas about the `UpdateChunkSize` loop. -/

theorem frameRate_pos (speed : TUSBSpeed) : 0 < frameRate speed := by
  unfold frameRate
  split <;> norm_num

theorem updateChunkLoop_sum (r F : Nat) :
    ∀ (n a : Nat),
      (updateChunkLoop r F n a).2.1 = (updateChunkLoop r F n a).1.sum
  | 0, a => rfl
  | Nat.succ n, a => by
      simp only [updateChunkLoop, List.sum_cons]
      rw [updateChunkLoop_sum r F n]

theorem updateChunkLoop_length (r F : Nat) :
    ∀ (n a : Nat), (updateChunkLoop r F n a).1.length = n
  | 0, a => rfl
  | Nat.succ n, a => by
      simp only [updateChunkLoop, List.length_cons]
      rw [updateChunkLoop_length r F n]

theorem updateChunkLoop_packet_div (r F : Nat) :
    ∀ (n a : Nat), ∀ p ∈ (updateChunkLoop r F n a).1, 4 ∣ p
  | 0, a => by simp [updateChunkLoop]
  | Nat.succ n, a => by
      simp only [updateChunkLoop, List.mem_cons]
      rintro p (rfl | hp)
      · exact ⟨(a + r) / F, by unfold CHANNELS SUBFRAME_SIZE; ring⟩
      · exact updateChunkLoop_packet_div r F n _ p hp

theorem updateChunkLoop_total_div (r F : Nat) :
    ∀ (n a : Nat), 4 ∣ (updateChunkLoop r F n a).2.1
  | 0, a => ⟨0, rfl⟩
  | Nat.succ n, a => by
      simp only [updateChunkLoop]
      exact Nat.dvd_add ⟨(a + r) / F, by unfold CHANNELS SUBFRAME_SIZE; ring⟩
        (updateChunkLoop_total_div r F n _)

theorem updateChunkLoop_conserve (r F : Nat) :
    ∀ (n a : Nat),
      (updateChunkLoop r F n a).2.1 * F + 4 * (updateChunkLoop r F n a).2.2
        = 4 * a + 4 * (n * r)
  | 0, a => by simp [updateChunkLoop]
  | Nat.succ n, a => by
      have ih := updateChunkLoop_conserve r F n ((a + r) % F)
      have hdm : F * ((a + r) / F) + (a + r) % F = a + r := Nat.div_add_mod _ _
      simp only [updateChunkLoop]
      unfold CHANNELS SUBFRAME_SIZE
      zify at ih hdm ⊢
      ring_nf at ih hdm ⊢
      linarith [ih, hdm]

theorem updateChunkLoop_accu_lt (r F : Nat) (hF : 0 < F) :
    ∀ (n a : Nat), (updateChunkLoop r F (n + 1) a).2.2 < F
  | 0, a => by
      simp only [updateChunkLoop]
      exact Nat.mod_lt _ hF
  | Nat.succ n, a => by
      simp only [updateChunkLoop]
      exact updateChunkLoop_accu_lt r F hF n _

/-! Helper lemmas about `UpdateChunkSize` and its chunk-level iteration. -/

theorem UpdateChunkSize_rate (cfg : StreamConfig) (s : StreamState) :
    (UpdateChunkSize cfg s).nSampleRate = s.nSampleRate := rfl

theorem UpdateChunkSize_flag (cfg : StreamConfig) (s : StreamState) :
    (UpdateChunkSize cfg s).bSyncEPActive = s.bSyncEPActive := rfl

theorem frameRate_Low : frameRate TUSBSpeed.Low = 8000 := rfl

theorem frameRate_Full : frameRate TUSBSpeed.Full = 1000 := rfl

theorem frameRate_High : frameRate TUSBSpeed.High = 8000 := rfl

theorem UpdateChunkSize_accu_lt (cfg : StreamConfig) (s : StreamState) :
    (UpdateChunkSize cfg s).nSyncAccu < frameRate cfg.speed := by
  rcases hsp : cfg.speed with _ | _ | _ <;>
    · simp only [UpdateChunkSize, CHUNK_FREQUENCY, hsp, frameRate_Low,
        frameRate_Full, frameRate_High]
      norm_num
      first
        | exact updateChunkLoop_accu_lt _ _ (by norm_num) 0 _
        | exact updateChunkLoop_accu_lt _ _ (by norm_num) 7 _

theorem UpdateChunkSize_conserve (cfg : StreamConfig) (s : StreamState) :
    (UpdateChunkSize cfg s).nChunkSizeBytes * frameRate cfg.speed
        + 4 * (UpdateChunkSize cfg s).nSyncAccu
      = 4 * s.nSyncAccu
        + 4 * ((frameRate cfg.speed / CHUNK_FREQUENCY) * s.nSampleRate) := by
  simp only [UpdateChunkSize]
  exact updateChunkLoop_conserve s.nSampleRate (frameRate cfg.speed)
    (frameRate cfg.speed / CHUNK_FREQUENCY) s.nSyncAccu

theorem iterateChunks_accu_lt (cfg : StreamConfig) :
    ∀ (k : Nat) (s : StreamState),
      (iterateChunks cfg s (k + 1)).nSyncAccu < frameRate cfg.speed
  | 0, s => UpdateChunkSize_accu_lt cfg s
  | Nat.succ k, s => iterateChunks_accu_lt cfg k (UpdateChunkSize cfg s)

theorem totalChunkBytes_conserve (cfg : StreamConfig) :
    ∀ (k : Nat) (s : StreamState),
      totalChunkBytes cfg s k * frameRate cfg.speed
          + 4 * (iterateChunks cfg s k).nSyncAccu
        = 4 * s.nSyncAccu
          + 4 * (k * (frameRate cfg.speed / CHUNK_FREQUENCY) * s.nSampleRate)
  | 0, s => by simp [totalChunkBytes, iterateChunks]
  | Nat.succ k, s => by
      have ih := totalChunkBytes_conserve cfg k (UpdateChunkSize cfg s)
      have hc := UpdateChunkSize_conserve cfg s
      rw [UpdateChunkSize_rate] at ih
      simp only [totalChunkBytes, iterateChunks]
      zify at ih hc ⊢
      ring_nf at ih hc ⊢
      linarith [ih, hc]

/-- C1: under the synchronous discipline, each run of `UpdateChunkSize`
emits one packet per USB service interval in the chunk
(`frameRate / CHUNK_FREQUENCY` of them), each packet a whole number of
4-byte frames, with the chunk size the sum of all packet sizes; after
every recomputation the accumulator is in `[0, frameRate)`; and over a
window of `frameRate / 1000` chunks the total emitted bytes, scaled by
`frameRate`, stays within `4 * frameRate` of
`4 * (frameRate / 1000)^2 * rate` — i.e. the emitted frame count is
within one frame of `rate / 1000 * (frameRate / 1000)`. -/
theorem updateChunkSize_bresenham_spec (cfg : StreamConfig) (s : StreamState)
    (h : s.nSyncAccu < frameRate cfg.speed) :
    (UpdateChunkSize cfg s).nChunkSizeBytes
        = (UpdateChunkSize cfg s).usPacketSizeBytes.sum
      ∧ (UpdateChunkSize cfg s).usPacketSizeBytes.length
          = frameRate cfg.speed / CHUNK_FREQUENCY
      ∧ (∀ p ∈ (UpdateChunkSize cfg s).usPacketSizeBytes, 4 ∣ p)
      ∧ (UpdateChunkSize cfg s).nSyncAccu < frameRate cfg.speed
      ∧ ((totalChunkBytes cfg s (frameRate cfg.speed / CHUNK_FREQUENCY) : Int)
              * (frameRate cfg.speed : Int)
            - 4 * (frameRate cfg.speed / CHUNK_FREQUENCY : Nat)
              * (frameRate cfg.speed / CHUNK_FREQUENCY : Nat)
              * (s.nSampleRate : Int)).natAbs
          < 4 * frameRate cfg.speed := by
  refine ⟨updateChunkLoop_sum _ _ _ _, updateChunkLoop_length _ _ _ _,
    updateChunkLoop_packet_div _ _ _ _, UpdateChunkSize_accu_lt cfg s, ?_⟩
  have hcons := totalChunkBytes_conserve cfg
    (frameRate cfg.speed / CHUNK_FREQUENCY) s
  rcases hsp : cfg.speed with _ | _ | _
  · have hend := iterateChunks_accu_lt cfg 7 s
    simp only [hsp, frameRate_Low, CHUNK_FREQUENCY] at hcons h hend ⊢
    norm_num at hcons h hend ⊢
    omega
  · have hend := iterateChunks_accu_lt cfg 0 s
    simp only [hsp, frameRate_Full, CHUNK_FREQUENCY] at hcons h hend ⊢
    norm_num at hcons h hend ⊢
    omega
  · have hend := iterateChunks_accu_lt cfg 7 s
    simp only [hsp, frameRate_High, CHUNK_FREQUENCY] at hcons h hend ⊢
    norm_num at hcons h hend ⊢
    omega

/-- C1 witness: the synchronous-discipline recomputation at 44100 Hz on a
full-speed bus from a reduced accumulator. -/
theorem updateChunkSize_bresenham_spec_witness :
    sRate44100.nSyncAccu < frameRate cfgSyncFull.speed
      ∧ ((UpdateChunkSize cfgSyncFull sRate44100).nChunkSizeBytes
            = (UpdateChunkSize cfgSyncFull sRate44100).usPacketSizeBytes.sum
          ∧ (UpdateChunkSize cfgSyncFull sRate44100).usPacketSizeBytes.length
              = frameRate cfgSyncFull.speed / CHUNK_FREQUENCY
          ∧ (∀ p ∈ (UpdateChunkSize cfgSyncFull sRate44100).usPacketSizeBytes,
              4 ∣ p)
          ∧ (UpdateChunkSize cfgSyncFull sRate44100).nSyncAccu
              < frameRate cfgSyncFull.speed
          ∧ ((totalChunkBytes cfgSyncFull sRate44100
                  (frameRate cfgSyncFull.speed / CHUNK_FREQUENCY) : Int)
                  * (frameRate cfgSyncFull.speed : Int)
                - 4 * (frameRate cfgSyncFull.speed / CHUNK_FREQUENCY : Nat)
                  * (frameRate cfgSyncFull.speed / CHUNK_FREQUENCY : Nat)
                  * (sRate44100.nSampleRate : Int)).natAbs
              < 4 * frameRate cfgSyncFull.speed) :=
  ⟨by decide, updateChunkSize_bresenham_spec cfgSyncFull sRate44100 (by decide)⟩

/-- C2: under the asynchronous discipline a successful feedback
completion adds the raw fixed-point sample to the accumulator (the
3-byte Q10.14 payload is masked to 24 bits), sets the chunk size to
`(accumulator >> fractional_bits) * 4` bytes with 14 fractional bits for
the 3-byte format and 16 for the 4-byte format, and reduces the
accumulator modulo `2 ^ fractional_bits`; for a constant Q16.16 sample
`48 << 16` at high speed (4-byte payload) the chunk size is 192 bytes
from the first update on, with the reduced accumulator unchanged. -/
theorem syncCompletion_feedback_spec :
    (∀ (s : StreamState) (v : Nat),
        (SyncCompletionHandler true 3 v s).nChunkSizeBytes
            = (s.nSyncAccu + v % 2 ^ 24) / 2 ^ 14 * (CHANNELS * SUBFRAME_SIZE)
          ∧ (SyncCompletionHandler true 3 v s).nSyncAccu
            = (s.nSyncAccu + v % 2 ^ 24) % 2 ^ 14)
    ∧ (∀ (s : StreamState) (v : Nat),
        (SyncCompletionHandler true 4 v s).nChunkSizeBytes
            = (s.nSyncAccu + v) / 2 ^ 16 * (CHANNELS * SUBFRAME_SIZE)
          ∧ (SyncCompletionHandler true 4 v s).nSyncAccu
            = (s.nSyncAccu + v) % 2 ^ 16)
    ∧ (∀ (s : StreamState), s.nSyncAccu < 2 ^ 16 →
        (SyncCompletionHandler true 4 (48 * 2 ^ 16) s).nChunkSizeBytes = 192
          ∧ (SyncCompletionHandler true 4 (48 * 2 ^ 16) s).nSyncAccu
              = s.nSyncAccu) := by
  refine ⟨fun s v => ⟨rfl, rfl⟩, fun s v => ⟨rfl, rfl⟩, fun s h => ?_⟩
  constructor
  · show (s.nSyncAccu + 48 * 2 ^ 16) / 2 ^ 16 * (CHANNELS * SUBFRAME_SIZE) = 192
    unfold CHANNELS SUBFRAME_SIZE
    omega
  · show (s.nSyncAccu + 48 * 2 ^ 16) % 2 ^ 16 = s.nSyncAccu
    omega

/-- C2 witness: one high-speed feedback update with sample `48 << 16`
from the freshly configured stream state. -/
theorem syncCompletion_feedback_spec_witness :
    sRate44100.nSyncAccu < 2 ^ 16
      ∧ ((SyncCompletionHandler true 4 (48 * 2 ^ 16) sRate44100).nChunkSizeBytes
            = 192
          ∧ (SyncCompletionHandler true 4 (48 * 2 ^ 16) sRate44100).nSyncAccu
              = sRate44100.nSyncAccu) :=
  ⟨by decide, syncCompletion_feedback_spec.2.2 sRate44100 (by decide)⟩

/-- Stream state used by the C5 counterexample: accumulator 0, previous
chunk size 176 bytes. -/
def sChunk176 : StreamState :=
  { initialState with nSampleRate := 44100, nChunkSizeBytes := 176 }

/-- C5 counterexample: a feedback completion with successful status but
wrong payload length (2 instead of 3 or 4) does NOT leave the chunk size
unchanged — the handler processes it through the Q16.16 branch and
recomputes the chunk size from 176 to 192 bytes. -/
theorem syncCompletion_wrong_length_recomputes_cex :
    sChunk176.nChunkSizeBytes = 176
      ∧ (SyncCompletionHandler true 2 (48 * 2 ^ 16) sChunk176).nChunkSizeBytes
          = 192 := by
  constructor <;> rfl

/-- Helper: a successful feedback completion whose result length is not
3 runs the Q16.16 branch of the handler. -/
theorem syncCompletion_q1616 (len v : Nat) (s : StreamState) (h : len ≠ 3) :
    (SyncCompletionHandler true len v s).nChunkSizeBytes
        = (s.nSyncAccu + v) / 2 ^ 16 * (CHANNELS * SUBFRAME_SIZE)
      ∧ (SyncCompletionHandler true len v s).nSyncAccu
          = (s.nSyncAccu + v) % 2 ^ 16 := by
  simp only [SyncCompletionHandler, Bool.true_and, decide_eq_true_eq, h,
    if_true, if_false, decide_eq_false h]
  exact ⟨trivial, trivial⟩

/-- C5 (amended): a feedback completion with a transport error leaves
the previous chunk size and the synchronization accumulator unchanged —
no recomputation occurs for that cycle; the payload length is not
validated, however: a successful completion is processed as Q10.14 when
the result length is 3 and as Q16.16 for every other length. -/
theorem syncCompletion_error_only_guard :
    (∀ (len v : Nat) (s : StreamState),
        (SyncCompletionHandler false len v s).nChunkSizeBytes
            = s.nChunkSizeBytes
          ∧ (SyncCompletionHandler false len v s).nSyncAccu = s.nSyncAccu)
    ∧ (∀ (len v : Nat) (s : StreamState), len ≠ 3 →
        (SyncCompletionHandler true len v s).nChunkSizeBytes
            = (s.nSyncAccu + v) / 2 ^ 16 * (CHANNELS * SUBFRAME_SIZE)
          ∧ (SyncCompletionHandler true len v s).nSyncAccu
              = (s.nSyncAccu + v) % 2 ^ 16) := by
  constructor
  · intro len v s
    exact ⟨rfl, rfl⟩
  · intro len v s h
    exact syncCompletion_q1616 len v s h

/-- C5 witness: a successful completion of (malformed) length 2 goes
through the Q16.16 recomputation. -/
theorem syncCompletion_error_only_guard_witness :
    (2 : Nat) ≠ 3
      ∧ ((SyncCompletionHandler true 2 (48 * 2 ^ 16) sChunk176).nChunkSizeBytes
            = (sChunk176.nSyncAccu + 48 * 2 ^ 16) / 2 ^ 16
              * (CHANNELS * SUBFRAME_SIZE)
          ∧ (SyncCompletionHandler true 2 (48 * 2 ^ 16) sChunk176).nSyncAccu
              = (sChunk176.nSyncAccu + 48 * 2 ^ 16) % 2 ^ 16) :=
  ⟨by decide, syncCompletion_error_only_guard.2 2 (48 * 2 ^ 16) sChunk176
    (by decide)⟩

/-- C3: `Setup` accepts a requested rate iff some discovered range entry
satisfies the literal source condition `Min >= rate && Max <= rate` (and
the `SET_CUR` transfer succeeds); given `Min <= Max` for every entry,
that condition holds exactly when some entry has `Min == Max == rate`;
and a rate strictly inside a continuous range never matches. -/
theorem setup_rate_match_literal :
    (∀ (cfg : StreamConfig) (hostOk : Bool) (rate : Nat) (s : StreamState),
        (Setup cfg hostOk rate s).1 = (rateSupported cfg.info rate && hostOk))
    ∧ (∀ (info : TDeviceInfo) (rate : Nat),
        (∀ r ∈ info.SampleRateRange, r.Min ≤ r.Max) →
          (rateSupported info rate = true
            ↔ ∃ r ∈ info.SampleRateRange, r.Min = rate ∧ r.Max = rate))
    ∧ (∀ (r : TSampleRateRange) (rate : Nat),
        r.Min < rate → rate < r.Max → rateMatches r rate = false) := by
  refine ⟨?_, ?_, ?_⟩
  · intro cfg hostOk rate s
    rcases h1 : rateSupported cfg.info rate <;> rcases h2 : hostOk <;>
      rcases h3 : cfg.bSynchronousSync <;> simp [Setup, h1, h2, h3]
  · intro info rate h
    unfold rateSupported
    rw [List.any_eq_true]
    constructor
    · rintro ⟨r, hr, hm⟩
      refine ⟨r, hr, ?_⟩
      have hmm := h r hr
      simp only [rateMatches, Bool.and_eq_true, decide_eq_true_eq] at hm
      omega
    · rintro ⟨r, hr, hmin, hmax⟩
      refine ⟨r, hr, ?_⟩
      simp only [rateMatches, Bool.and_eq_true, decide_eq_true_eq]
      omega
  · intro r rate h1 h2
    simp only [rateMatches, Bool.and_eq_false_iff, decide_eq_false_iff_not]
    omega

/-- C3 witness: a discrete entry 44100 matches exactly, and 44100
strictly inside the continuous range 32000-48000 does not match. -/
theorem setup_rate_match_literal_witness :
    ((Setup (mkStaticCfg infoDiscrete44100) true 44100 initialState).1
        = (rateSupported (mkStaticCfg infoDiscrete44100).info 44100 && true))
      ∧ (∀ r ∈ infoDiscrete44100.SampleRateRange, r.Min ≤ r.Max)
      ∧ (rateSupported infoDiscrete44100 44100 = true
          ↔ ∃ r ∈ infoDiscrete44100.SampleRateRange,
              r.Min = 44100 ∧ r.Max = 44100)
      ∧ ({ Min := 32000, Max := 48000, Resolution := 1 }
            : TSampleRateRange).Min < 44100
      ∧ 44100 < ({ Min := 32000, Max := 48000, Resolution := 1 }
            : TSampleRateRange).Max
      ∧ rateMatches { Min := 32000, Max := 48000, Resolution := 1 } 44100
          = false :=
  ⟨setup_rate_match_literal.1 (mkStaticCfg infoDiscrete44100) true 44100
      initialState,
    by decide,
    setup_rate_match_literal.2.1 infoDiscrete44100 44100 (by decide),
    by decide, by decide,
    setup_rate_match_literal.2.2 { Min := 32000, Max := 48000, Resolution := 1 }
      44100 (by decide) (by decide)⟩

/-- C4: the spec scenario — legacy device with the continuous range
32000-48000 Hz resolution 1, `Setup (44100)` — fails on the code: the
rate is contained in the advertised range (the spec's corrected
containment reading holds), yet the literal condition matches no entry
and `Setup` returns `FALSE` with the state untouched.  When the same
rate is advertised as a discrete entry, `Setup` does succeed and the
static discipline sets the chunk size to `44100 * 4 / 1000 = 176` bytes,
as the scenario expects. -/
theorem setup_continuous_range_rejected_bug :
    rateContained (mkStaticCfg infoContinuous3248).info 44100 = true
      ∧ Setup (mkStaticCfg infoContinuous3248) true 44100 initialState
          = (false, initialState)
      ∧ Setup (mkStaticCfg infoDiscrete44100) true 44100 initialState
          = (true, { initialState with
                       nSampleRate := 44100
                       nChunkSizeBytes := 176 }) := by
  refine ⟨rfl, rfl, ?_⟩
  decide

/-- C7: when `Setup` fails — the requested rate is unsupported or the
`SET_CUR` control transfer fails — it returns `FALSE` and leaves the
previously configured sample rate and chunk size (the whole stream
state) unchanged. -/
theorem setup_failure_preserves_state (cfg : StreamConfig) (hostOk : Bool)
    (rate : Nat) (s : StreamState)
    (h : rateSupported cfg.info rate = false ∨ hostOk = false) :
    Setup cfg hostOk rate s = (false, s) := by
  rcases h1 : rateSupported cfg.info rate <;> rcases h2 : hostOk <;>
    simp_all [Setup]

/-- C7 witness: `Setup (44100)` on the continuous-range device fails and
preserves the state. -/
theorem setup_failure_preserves_state_witness :
    (rateSupported (mkStaticCfg infoContinuous3248).info 44100 = false
        ∨ (true : Bool) = false)
      ∧ Setup (mkStaticCfg infoContinuous3248) true 44100 sChunk176
          = (false, sChunk176) :=
  ⟨Or.inl (by decide),
    setup_failure_preserves_state (mkStaticCfg infoContinuous3248) true 44100
      sChunk176 (Or.inl (by decide))⟩

/-- C8 (amended): the chunk size is a multiple of the 4-byte frame size
after every synchronous-discipline recomputation and after every
successful feedback update, and a failed feedback update leaves it
unchanged; under the static discipline, however, a successful `Setup`
sets it to `rate * 4 / 1000`, which is not a multiple of 4 for every
supported rate. -/
theorem chunk_frame_alignment_amended :
    (∀ (cfg : StreamConfig) (s : StreamState),
        4 ∣ (UpdateChunkSize cfg s).nChunkSizeBytes)
    ∧ (∀ (len v : Nat) (s : StreamState),
        4 ∣ (SyncCompletionHandler true len v s).nChunkSizeBytes)
    ∧ (∀ (len v : Nat) (s : StreamState),
        (SyncCompletionHandler false len v s).nChunkSizeBytes
          = s.nChunkSizeBytes)
    ∧ (∀ (cfg : StreamConfig) (hostOk : Bool) (rate : Nat) (s : StreamState),
        cfg.bSynchronousSync = false → (Setup cfg hostOk rate s).1 = true →
          (Setup cfg hostOk rate s).2.nChunkSizeBytes
            = rate * CHANNELS * SUBFRAME_SIZE / CHUNK_FREQUENCY) := by
  refine ⟨?_, ?_, ?_, ?_⟩
  · intro cfg s
    exact updateChunkLoop_total_div _ _ _ _
  · intro len v s
    by_cases h : len = 3
    · subst h
      show 4 ∣ (s.nSyncAccu + v % 2 ^ 24) / 2 ^ 14 * (CHANNELS * SUBFRAME_SIZE)
      exact Dvd.intro _ (by unfold CHANNELS SUBFRAME_SIZE; ring)
    · rw [(syncCompletion_q1616 len v s h).1]
      exact Dvd.intro _ (by unfold CHANNELS SUBFRAME_SIZE; ring)
  · intro len v s
    rfl
  · intro cfg hostOk rate s hsync hok
    rcases h1 : rateSupported cfg.info rate <;> rcases h2 : hostOk <;>
      simp_all [Setup]

/-- C8 witness: the static-discipline chunk-size formula, instantiated
through a successful `Setup (44100)`. -/
theorem chunk_frame_alignment_amended_witness :
    (mkStaticCfg infoDiscrete44100).bSynchronousSync = false
      ∧ (Setup (mkStaticCfg infoDiscrete44100) true 44100 initialState).1
          = true
      ∧ (Setup (mkStaticCfg infoDiscrete44100) true 44100
            initialState).2.nChunkSizeBytes
          = 44100 * CHANNELS * SUBFRAME_SIZE / CHUNK_FREQUENCY :=
  ⟨by decide, by decide,
    chunk_frame_alignment_amended.2.2.2 (mkStaticCfg infoDiscrete44100) true
      44100 initialState (by decide) (by decide)⟩

/-- C8 counterexample: a device advertising the discrete rate 44500 Hz;
`Setup (44500)` succeeds under the static discipline and sets the chunk
size to `44500 * 4 / 1000 = 178` bytes, which is not a multiple of the
4-byte frame size. -/
theorem chunk_not_frame_aligned_static_cex :
    (Setup (mkStaticCfg infoDiscrete44500) true 44500 initialState).1 = true
      ∧ (Setup (mkStaticCfg infoDiscrete44500) true 44500
            initialState).2.nChunkSizeBytes = 178
      ∧ ¬ 4 ∣ (Setup (mkStaticCfg infoDiscrete44500) true 44500
            initialState).2.nChunkSizeBytes := by
  refine ⟨rfl, rfl, ?_⟩
  decide

/-- Invariant of the feedback protocol: never more than one feedback
read outstanding, and an outstanding read implies the in-flight flag. -/
def SyncInv (st : SyncSysState) : Prop :=
  st.outstanding ≤ 1
    ∧ (st.outstanding = 1 → st.stream.bSyncEPActive = true)

theorem stepEv_preserves (cfg : StreamConfig) (st : SyncSysState)
    (e : AudioEv) (h : SyncInv st) : SyncInv (stepEv cfg st e) := by
  obtain ⟨h1, h2⟩ := h
  cases e with
  | send bDataOk bSyncSubmitOk =>
      rcases hd : bDataOk <;> rcases hs : cfg.hasSyncEP <;>
        rcases ha : st.stream.bSyncEPActive <;>
        rcases hso : bSyncSubmitOk <;>
        rcases hsync : cfg.bSynchronousSync <;>
        simp_all [SyncInv, stepEv, SendChunk, UpdateChunkSize_flag] <;>
        omega
  | syncComplete bOK len v =>
      simp only [SyncInv, stepEv]
      split
      · exact ⟨h1, h2⟩
      · refine ⟨?_, ?_⟩
        · show st.outstanding - 1 ≤ 1
          omega
        · intro hc
          have hc2 : st.outstanding - 1 = 1 := hc
          exact absurd hc2 (by omega)

theorem runEvents_inv (cfg : StreamConfig) :
    ∀ (evs : List AudioEv) (st : SyncSysState),
      SyncInv st → SyncInv (runEvents cfg st evs)
  | [], st, h => h
  | e :: es, st, h =>
      runEvents_inv cfg es (stepEv cfg st e) (stepEv_preserves cfg st e h)

/-- C6: over every interleaved sequence of `SendChunk` calls and
feedback-completion events starting from the fresh device, at most one
feedback read is outstanding at any time — `SendChunk` submits a
companion read only when the in-flight flag is clear, setting the flag
before submitting — and the feedback completion handler clears the flag
unconditionally, even when the transfer failed. -/
theorem feedback_at_most_one_outstanding :
    (∀ (cfg : StreamConfig) (evs : List AudioEv),
        (runEvents cfg initSys evs).outstanding ≤ 1)
      ∧ (∀ (bOK : Bool) (len v : Nat) (s : StreamState),
          (SyncCompletionHandler bOK len v s).bSyncEPActive = false) := by
  constructor
  · intro cfg evs
    exact (runEvents_inv cfg evs initSys ⟨by decide, by decide⟩).1
  · intro bOK len v s
    rfl

/-- C9: `SetVolume (nChannel, ndB)` with `nChannel > 1` halts at the
argument assertion before any control transfer is issued; for channel 0
or 1 on a device with volume support, a single
`SET_CUR` volume transfer is issued whose wValue selects the 1-indexed
channel `nChannel + 1` and whose 2-byte payload is the dB value encoded
as signed 16-bit fixed point, `ndB << 8`. -/
theorem setVolume_channel_guard_encoding :
    (∀ (cfg : StreamConfig) (hostOk : Bool) (nChannel : Nat) (ndB : Int),
        nChannel > 1 → SetVolume cfg hostOk nChannel ndB = none)
    ∧ (∀ (cfg : StreamConfig) (hostOk : Bool) (nChannel : Nat) (ndB : Int),
        nChannel ≤ 1 → cfg.info.VolumeSupported = true →
          SetVolume cfg hostOk nChannel ndB
            = some (hostOk,
                [{ Request := USB_AUDIO_REQ_SET_CUR
                   Value := USB_AUDIO_FU_VOLUME_CONTROL * 2 ^ 8 + (nChannel + 1)
                   Index := cfg.uchFeatureUnitID * 2 ^ 8
                   Data := toS16 (ndB * 2 ^ 8)
                   Length := 2 }])) := by
  constructor
  · intro cfg hostOk nChannel ndB h
    simp [SetVolume, h]
  · intro cfg hostOk nChannel ndB h hvol
    simp [SetVolume, Nat.not_lt.mpr h, hvol]

/-- C9 witness: `SetVolume (2, -10)` is rejected before any transfer;
`SetVolume (0, -10)` issues the encoded transfer for channel 1. -/
theorem setVolume_channel_guard_encoding_witness :
    (2 : Nat) > 1
      ∧ SetVolume (mkStaticCfg infoDiscrete44100) true 2 (-10) = none
      ∧ (0 : Nat) ≤ 1
      ∧ (mkStaticCfg infoDiscrete44100).info.VolumeSupported = true
      ∧ SetVolume (mkStaticCfg infoDiscrete44100) true 0 (-10)
          = some (true,
              [{ Request := USB_AUDIO_REQ_SET_CUR
                 Value := USB_AUDIO_FU_VOLUME_CONTROL * 2 ^ 8 + (0 + 1)
                 Index := (mkStaticCfg infoDiscrete44100).uchFeatureUnitID
                   * 2 ^ 8
                 Data := toS16 (-10 * 2 ^ 8)
                 Length := 2 }]) :=
  ⟨by decide,
    setVolume_channel_guard_encoding.1 (mkStaticCfg infoDiscrete44100) true 2
      (-10) (by decide),
    by decide, by decide,
    setVolume_channel_guard_encoding.2 (mkStaticCfg infoDiscrete44100) true 0
      (-10) (by decide) (by decide)⟩

/-- C10 (amended): on successful configuration the logical device is
registered under a name of the form `uaudio<n>-<m>` — `n` the parent
control device's number, `m` the per-control-device sub-stream counter —
and that name is removed from the registry on teardown. -/
theorem device_naming_amended :
    (∀ (n m : Nat) (reg : List String),
        (configureNaming n m reg).1
            = "uaudio" ++ toString n ++ "-" ++ toString m
          ∧ (configureNaming n m reg).1 ∈ (configureNaming n m reg).2)
      ∧ (∀ (name : String) (reg : List String),
          name ∉ teardownNaming (some name) reg) := by
  constructor
  · intro n m reg
    exact ⟨rfl, List.mem_cons_self _ _⟩
  · intro name reg h
    unfold teardownNaming RemoveDevice at h
    have hmem := List.of_mem_filter h
    simp at hmem

/-- C10 counterexample: the registered name for control device 1,
sub-device 1 is the string `uaudio1-1`, not `streamdevice1-1` as the
claim's name pattern states. -/
theorem device_naming_pattern_cex :
    (configureNaming 1 1 []).1 = "uaudio1-1"
      ∧ (configureNaming 1 1 []).1 ≠ "streamdevice1-1" := by
  constructor
  · rfl
  · decide

end USBAudio
